import Mathlib

/-
Verification of the LCS repair-shop backend (Django) against its
natural-language specification.  Shallow embedding conventions:

* `DecimalField(max_digits=10, decimal_places=2)` amounts are exactly the
  rationals with denominator 100, so they are embedded losslessly as
  integers counting hundredths of a currency unit (cents).  All the
  comparisons the code performs (`= 0`, `<`, `=`, `+`) are preserved by
  this scaling, and concrete spec amounts appear multiplied by 100
  (1000.00 becomes 100000).
* Timestamps and durations are integers counting seconds
  (`DurationField` values are entered as hh:mm:ss per the model help
  text, hence whole seconds).
* Python exceptions become an explicit error type, fallible code returns
  `Except`.
-/

/-- Python-level errors raised by the modelled code paths.
AttributeError models access to a missing class attribute
(for example `Finances.PARTIAL`, absent from utils/constants.py);
validation models django ValidationError / DRF ValidationError. -/
inductive PyErr where
  | attributeError (missing : String)
  | validation (msg : String)
  | typeError (msg : String)
  deriving DecidableEq, Repr

/- ----------------------------------------------------------------
utils/constants.py
---------------------------------------------------------------- -/

namespace Finances

def PENDING : String := "pending"
def PAID : String := "paid"
def FAILED : String := "failed"
def REFUNDED : String := "refunded"

def BOOKING_PAYMENT : String := "booking_payment"
def PARTS_PURCHASE : String := "parts_purchase"
def SERVICE_PAYMENT : String := "service_payment"
def STAFF_SALARY : String := "staff_salary"

def CASH : String := "cash"
def CARD : String := "card"
def MPESA : String := "mpesa"
def BANK_TRANSFER : String := "bank_transfer"

/-- Attribute lookup on the `Finances` class of utils/constants.py
(lines 77-112).  The class defines PENDING, PAID, FAILED, REFUNDED and the
transaction-type / payment-method constants; it defines NO `PARTIAL`
attribute, so that lookup yields `none` (a Python AttributeError at the
point of use). -/
def attr : String → Option String
  | "PENDING" => some PENDING
  | "PAID" => some PAID
  | "FAILED" => some FAILED
  | "REFUNDED" => some REFUNDED
  | "BOOKING_PAYMENT" => some BOOKING_PAYMENT
  | "PARTS_PURCHASE" => some PARTS_PURCHASE
  | "SERVICE_PAYMENT" => some SERVICE_PAYMENT
  | "STAFF_SALARY" => some STAFF_SALARY
  | "CASH" => some CASH
  | "CARD" => some CARD
  | "MPESA" => some MPESA
  | "BANK_TRANSFER" => some BANK_TRANSFER
  | _ => none

end Finances

namespace BookingStatus

def PENDING : String := "pending"
def CONFIRMED : String := "confirmed"
def IN_PROGRESS : String := "in_progress"
def COMPLETED : String := "completed"
def CANCELLED : String := "canceled"

/-- The five booking statuses of `BookingStatus.CHOICES`. -/
def CHOICES : List String := [PENDING, CONFIRMED, IN_PROGRESS, COMPLETED, CANCELLED]

end BookingStatus

/-- `BUSINESS_HOURS['start_time']` in utils/constants.py line 146. -/
def BUSINESS_HOURS_start_time : String := "08:00 AM"

/-- `BUSINESS_HOURS['end_time']` in utils/constants.py line 147. -/
def BUSINESS_HOURS_end_time : String := "06:00 PM"

/- ----------------------------------------------------------------
apps/finances/models.py
---------------------------------------------------------------- -/

/-- The fields of `Transaction` relevant to the amount/status logic.
Decimal amounts are embedded as integers counting cents. -/
structure Transaction where
  total_amount : ℤ
  amount_paid : ℤ
  status : String
  deriving DecidableEq, Repr

/-- `Transaction.clean` (models.py lines 66-72): reject when
total_amount ≤ 0 or amount_paid > total_amount. -/
def Transaction.clean (t : Transaction) : Except PyErr Unit :=
  if t.total_amount ≤ 0 then
    .error (.validation "Total amount must be greater than zero")
  else if t.amount_paid > t.total_amount then
    .error (.validation "Amount paid cannot exceed total amount")
  else
    .ok ()

/-- `Transaction.balance_due` (models.py lines 91-94). -/
def Transaction.balance_due (t : Transaction) : ℤ :=
  t.total_amount - t.amount_paid

/-- `Transaction.update_payment_status` (models.py lines 103-111).
Each branch assigns `self.status = Finances.X`; the attribute read is
modelled through `Finances.attr`, so a branch whose constant is missing
from the `Finances` class raises AttributeError instead of assigning.
When no branch matches (amount_paid above total) the status is left
unchanged and the record is saved as is. -/
def Transaction.update_payment_status (t : Transaction) : Except PyErr Transaction :=
  if t.amount_paid = 0 then
    match Finances.attr "PENDING" with
    | some s => .ok { t with status := s }
    | none => .error (.attributeError "PENDING")
  else if t.amount_paid < t.total_amount then
    match Finances.attr "PARTIAL" with
    | some s => .ok { t with status := s }
    | none => .error (.attributeError "PARTIAL")
  else if t.amount_paid = t.total_amount then
    match Finances.attr "PAID" with
    | some s => .ok { t with status := s }
    | none => .error (.attributeError "PAID")
  else
    .ok t

/-- `PaymentRecord.clean` (models.py lines 136-148), for a new payment of
`amount_paid` against transaction `t`: reject a non-positive amount, and
reject when `t.amount_paid + amount_paid` would exceed `t.total_amount`. -/
def PaymentRecord.clean (t : Transaction) (amount_paid : ℤ) : Except PyErr Unit :=
  if amount_paid ≤ 0 then
    .error (.validation "Payment amount must be greater than zero")
  else if t.amount_paid + amount_paid > t.total_amount then
    .error (.validation "This payment would exceed the total amount due")
  else
    .ok ()

/-- Inserting a PaymentRecord: the record is validated by
`PaymentRecord.clean`, and on success the transaction carries the new
cumulative paid total (the `amount_paid` field is documented in
models.py as the current total of all payments made). -/
def insertPayment (t : Transaction) (amount : ℤ) : Except PyErr Transaction :=
  match PaymentRecord.clean t amount with
  | .error e => .error e
  | .ok _ => .ok { t with amount_paid := t.amount_paid + amount }

/- ----------------------------------------------------------------
Business-hours gate of Booking.clean (apps/bookings/models.py 53-66)
---------------------------------------------------------------- -/

/-- Numeric value of a decimal digit character, none otherwise. -/
def digitVal (c : Char) : Option Nat :=
  if c.isDigit then some (c.toNat - '0'.toNat) else none

/-- The `.hour` of `datetime.strptime(s, '%I:%M %p')`: parse a
twelve-hour clock string of shape HH:MM AM / HH:MM PM and return the
24-hour hour value; `none` models a ValueError. -/
def strptime_hour (s : String) : Option Nat :=
  match s.toList with
  | [h1, h2, ':', m1, m2, ' ', p1, p2] =>
    match digitVal h1, digitVal h2, digitVal m1, digitVal m2 with
    | some a, some b, some c, some d =>
      let hh := a * 10 + b
      let mm := c * 10 + d
      if 1 ≤ hh ∧ hh ≤ 12 ∧ mm ≤ 59 then
        match p1, p2 with
        | 'A', 'M' => some (hh % 12)
        | 'P', 'M' => some (hh % 12 + 12)
        | _, _ => none
      else none
    | _, _, _, _ => none
  | _ => none

/-- Step 1 of `Booking.clean` (models.py lines 60-66): parse the two
configured business-hour strings and raise a ValidationError unless
`business_start <= local_time.hour < business_end`.  The input is the
hour of the local wall-clock form of the scheduled time; `true` means
the booking is rejected. -/
def clean_business_hours_reject (local_hour : Nat) : Bool :=
  match strptime_hour BUSINESS_HOURS_start_time, strptime_hour BUSINESS_HOURS_end_time with
  | some business_start, some business_end =>
    ¬ (business_start ≤ local_hour ∧ local_hour < business_end)
  | _, _ => true

/- ----------------------------------------------------------------
Overlap detection of Booking.clean (apps/bookings/models.py 94-106)
---------------------------------------------------------------- -/

/-- `service_duration` as computed in models.py line 95:
`self.detailed_service.service.estimated_time.total_seconds() if
self.detailed_service.service else 60`.  The argument is the service
estimated time in seconds when the detailed service has an associated
service, else `none`; the result is the bare number the code stores in
the `service_duration` variable (seconds in one branch, the literal 60
in the other). -/
def service_duration (estimated_time_seconds : Option ℤ) : ℤ :=
  match estimated_time_seconds with
  | some d => d
  | none => 60

/-- `booking_end_time` as computed in models.py line 96:
`self.scheduled_time + timedelta(minutes=service_duration)`.  Since
`timedelta(minutes=x)` lasts `60 * x` seconds, the end time in seconds
is the scheduled time plus sixty times the `service_duration` number. -/
def booking_end_time (scheduled_time : ℤ) (estimated_time_seconds : Option ℤ) : ℤ :=
  scheduled_time + 60 * service_duration estimated_time_seconds

/-- Modelled from the spec: the duration in seconds the specification
attributes to a booking — the estimated duration of the detailed
service, with a default of 60 minutes (3600 seconds) when the catalog
entry lacks a duration. -/
def spec_duration_seconds (estimated_time_seconds : Option ℤ) : ℤ :=
  match estimated_time_seconds with
  | some d => d
  | none => 3600

/-- Modelled from the spec: the booking end time the specification
describes, `scheduled_time + detailed_service.estimated_duration`. -/
def spec_end_time (scheduled_time : ℤ) (estimated_time_seconds : Option ℤ) : ℤ :=
  scheduled_time + spec_duration_seconds estimated_time_seconds

/-- A stored booking row, as seen by the overlap query of
`Booking.clean`: primary key, technician, lifecycle status, scheduled
time (seconds), and the estimated time of its own service (used only by
the spec-side interval notion, not by the code). -/
structure BookingRow where
  pk : Nat
  technician : Option Nat
  status : String
  scheduled_time : ℤ
  estimated_time_seconds : Option ℤ
  deriving DecidableEq, Repr

/-- The candidate booking being validated, at the point of step 3 of
`Booking.clean` (a technician is assigned, else clean returned early).
`pk` is none on create. -/
structure BookingCand where
  pk : Option Nat
  technician : Nat
  scheduled_time : ℤ
  estimated_time_seconds : Option ℤ
  deriving DecidableEq, Repr

/-- Whether a stored row is matched by the queryset of models.py lines
98-103: same technician, status confirmed or in_progress, scheduled
strictly before `booking_end_time`, scheduled strictly after
`scheduled_time - timedelta(minutes=service_duration)`, and not the
record being updated. -/
def overlap_filter_hit (cand : BookingCand) (b : BookingRow) : Bool :=
  let d := service_duration cand.estimated_time_seconds
  b.technician == some cand.technician &&
  (b.status == BookingStatus.CONFIRMED || b.status == BookingStatus.IN_PROGRESS) &&
  b.scheduled_time < cand.scheduled_time + 60 * d &&
  b.scheduled_time > cand.scheduled_time - 60 * d &&
  some b.pk != cand.pk

/-- Step 3 of `Booking.clean`: the validation raises the slot-conflict
ValidationError exactly when some stored booking is matched by the
overlap queryset. -/
def clean_overlap_rejects (cand : BookingCand) (existing : List BookingRow) : Bool :=
  existing.any (overlap_filter_hit cand)

/-- Intersection of the half-open occupation intervals
`[s1, s1 + d1)` and `[s2, s2 + d2)`, the notion of overlap the claim
states. -/
def intervals_intersect (s1 d1 s2 d2 : ℤ) : Prop :=
  s1 < s2 + d2 ∧ s2 < s1 + d1

/- ----------------------------------------------------------------
Booking status-transition gate
(apps/bookings/serializers/detailed.py 116-129)
---------------------------------------------------------------- -/

/-- The `invalid_transitions` dictionary of
`BookingCreateUpdateSerializer.validate` as a lookup with default `[]`:
from completed one may not go to pending or confirmed; from cancelled
one may not go to completed. -/
def invalid_transitions (current_status : String) : List String :=
  if current_status = BookingStatus.COMPLETED then
    [BookingStatus.PENDING, BookingStatus.CONFIRMED]
  else if current_status = BookingStatus.CANCELLED then
    [BookingStatus.COMPLETED]
  else
    []

/-- On update with a requested status, the serializer raises a
ValidationError exactly when the new status is in
`invalid_transitions.get(current_status, [])`. -/
def transition_denied (current_status new_status : String) : Bool :=
  (invalid_transitions current_status).contains new_status

/- ----------------------------------------------------------------
apps/inventory: DevicePart and the stock-status read paths
---------------------------------------------------------------- -/

/-- The fields of `DevicePart` the stock logic reads.  `customer_laptop`
holds the id of the bound customer device, none for a shop-owned part;
`quantity` is a nullable PositiveIntegerField. -/
structure DevicePart where
  customer_laptop : Option Nat
  name : String
  quantity : Option Nat
  minimum_stock : Nat
  deriving DecidableEq, Repr

/-- The stock label assigned by `DevicePartAdmin.get_stock_status`
(apps/inventory/admin.py lines 100-117); `na` is the gray N/A branch
for a null quantity. -/
inductive StockLabel where
  | na
  | outOfStock
  | lowStock
  | inStock
  deriving DecidableEq, Repr

/-- `DevicePartAdmin.get_stock_status`: N/A when quantity is null,
out of stock when quantity ≤ 0, low stock when quantity <
minimum_stock, in stock otherwise. -/
def get_stock_status (quantity : Option Nat) (minimum_stock : Nat) : StockLabel :=
  match quantity with
  | none => .na
  | some q =>
    if q ≤ 0 then .outOfStock
    else if q < minimum_stock then .lowStock
    else .inStock

/-- `DevicePartDetailSerializer.get_is_low_stock`
(apps/inventory/serializers/detailed.py lines 157-158):
`obj.quantity <= obj.minimum_stock`. -/
def get_is_low_stock (quantity minimum_stock : Nat) : Bool :=
  quantity ≤ minimum_stock

/- ----------------------------------------------------------------
apps/bookings/models.py: BookingParts (lines 109-136)
---------------------------------------------------------------- -/

/-- A stored `BookingParts` row: the booking, the part, and the
quantity taken. -/
structure BookingPartsRow where
  booking : Nat
  part : Nat
  quantity : Nat
  deriving DecidableEq, Repr

/-- `BookingParts.clean` (models.py lines 119-131) for a row requesting
`quantity` units of `part` on a booking whose device is
`booking_device`: for a shop-owned part (no bound device) reject when
the requested quantity exceeds the recorded stock; for a device-bound
part reject when the bound device differs from the booking device. -/
def BookingParts.clean (part : DevicePart) (booking_device : Option Nat)
    (quantity : Nat) : Except PyErr Unit :=
  match part.customer_laptop with
  | none =>
    match part.quantity with
    | none => .error (.typeError "comparison of int and NoneType")
    | some stock =>
      if quantity > stock then
        .error (.validation "Not enough stock")
      else
        .ok ()
  | some dev =>
    if some dev ≠ booking_device then
      .error (.validation "Part is tied to a different customer device")
    else
      .ok ()

/-- The persistent state a BookingParts insertion touches: the part
record and the stored BookingParts rows. -/
structure PartsState where
  part : DevicePart
  rows : List BookingPartsRow
  deriving DecidableEq, Repr

/-- `BookingParts.save` (models.py lines 133-136): run `clean`, then
insert the row.  Nothing else is written: in particular the part record
(and hence its quantity) is not modified. -/
def BookingParts.save (st : PartsState) (booking : Nat)
    (booking_device : Option Nat) (partId : Nat) (quantity : Nat) :
    Except PyErr PartsState :=
  match BookingParts.clean st.part booking_device quantity with
  | .error e => .error e
  | .ok _ => .ok { st with rows := st.rows ++ [⟨booking, partId, quantity⟩] }

/- ----------------------------------------------------------------
BookingCreateUpdateSerializer.update
(apps/bookings/serializers/detailed.py 146-161)
---------------------------------------------------------------- -/

/-- A parts entry of the request payload (fields of
`BookingPartsSerializer` bound into `bookingparts_set`). -/
structure PartData where
  part : Nat
  quantity : Nat
  deriving DecidableEq, Repr

/-- The parts effect of `BookingCreateUpdateSerializer.update` on the
stored BookingParts table: `parts_data = validated_data.pop(
'bookingparts_set', None)`; when it is `none` the rows are untouched,
otherwise every row of this booking is deleted and one row per request
entry is created. -/
def serializer_update_parts (rows : List BookingPartsRow) (booking : Nat)
    (parts_data : Option (List PartData)) : List BookingPartsRow :=
  match parts_data with
  | none => rows
  | some ps =>
    rows.filter (fun r => r.booking != booking) ++
      ps.map (fun p => ⟨booking, p.part, p.quantity⟩)

/- ----------------------------------------------------------------
config/firebase.py: FirebaseAuthenticationMiddleware (lines 45-108)
---------------------------------------------------------------- -/

/-- The local account a Firebase uid resolves to, with the two optional
profile relations the middleware inspects via hasattr. -/
structure UserRecord where
  email : String
  has_customer_profile : Bool
  has_staff_profile : Bool
  deriving DecidableEq, Repr

/-- The principal the middleware attaches to the request: Django
AnonymousUser, or an authenticated user together with the
`profile_type` attribute the middleware sets. -/
inductive Principal where
  | anonymousUser
  | authUser (user : UserRecord) (profile_type : Option String)
  deriving DecidableEq, Repr

/-- `_get_token_from_header` (firebase.py lines 45-52): read the
Authorization header (empty string when absent), return none unless it
starts with Bearer and a space, else the entry at index 1 of the
header split on single spaces.  The string operations are expressed on
the character list of the header so they compute. -/
def _get_token_from_header (auth_header : String) : Option String :=
  if auth_header.toList.take 7 = "Bearer ".toList then
    some (String.mk ((auth_header.toList.splitOn ' ').getD 1 []))
  else
    none

/-- `_get_user` (firebase.py lines 54-108).  `verify_id_token` models
the external provider (`none` is an InvalidIdTokenError, `some uid` a
verified subject id) and `lookup_user` the database query by
firebase_uid.  A false token (none, or the empty string from a header
of exactly Bearer and a space) yields AnonymousUser without error;
verification failure raises AuthenticationFailed with Invalid token;
a missing local account raises AuthenticationFailed with User not
found; on success the user is returned with profile_type customer when
a customer profile exists, else staff when a staff profile exists, else
no profile attached.  No account is created on any path. -/
def _get_user (auth_header : String) (verify_id_token : String → Option String)
    (lookup_user : String → Option UserRecord) : Except String Principal :=
  match _get_token_from_header auth_header with
  | none => .ok .anonymousUser
  | some token =>
    if token = "" then .ok .anonymousUser
    else
      match verify_id_token token with
      | none => .error "Invalid token"
      | some firebase_uid =>
        match lookup_user firebase_uid with
        | none => .error "User not found"
        | some user =>
          if user.has_customer_profile then
            .ok (.authUser user (some "customer"))
          else if user.has_staff_profile then
            .ok (.authUser user (some "staff"))
          else
            .ok (.authUser user none)

/- ----------------------------------------------------------------
Theorems
---------------------------------------------------------------- -/

/-- C1: the claim says `update_payment_status` sets the status to
partial when 0 < amount_paid < total_amount, so that the scenario
transaction of 1000.00 moves pending → partial after its first payment
of 400.00.  The code bug: that branch reads `Finances.PARTIAL`, an
attribute the `Finances` class of utils/constants.py never defines, so
the partially-paid update raises AttributeError instead of assigning a
status.  The payment itself is accepted (first conjunct), the pending
and paid branches work as claimed (last two conjuncts), but the partial
branch fails (middle conjuncts). -/
theorem C1_partial_branch_raises :
    insertPayment { total_amount := 100000, amount_paid := 0, status := Finances.PENDING } 40000
      = .ok { total_amount := 100000, amount_paid := 40000, status := Finances.PENDING } ∧
    Transaction.update_payment_status
        { total_amount := 100000, amount_paid := 40000, status := Finances.PENDING }
      = .error (.attributeError "PARTIAL") ∧
    Finances.attr "PARTIAL" = none ∧
    Transaction.update_payment_status
        { total_amount := 100000, amount_paid := 0, status := Finances.FAILED }
      = .ok { total_amount := 100000, amount_paid := 0, status := Finances.PENDING } ∧
    Transaction.update_payment_status
        { total_amount := 100000, amount_paid := 100000, status := Finances.PENDING }
      = .ok { total_amount := 100000, amount_paid := 100000, status := Finances.PAID } := by
  refine ⟨rfl, rfl, rfl, rfl, rfl⟩

/-- C2: the claim says the end time used for overlap detection is
scheduled_time plus the estimated duration (default 60 minutes).  The
code bug: models.py line 95 takes `estimated_time.total_seconds()` and
line 96 passes that number to `timedelta(minutes=...)`, so for a
30-minute (1800-second) service the computed end time is 1800 minutes
(108000 seconds) after the scheduled time instead of 1800 seconds.
Only the no-service default branch agrees with the claim. -/
theorem C2_end_time_unit_mismatch :
    booking_end_time 0 (some 1800) = 108000 ∧
    spec_end_time 0 (some 1800) = 1800 ∧
    booking_end_time 0 (some 1800) ≠ spec_end_time 0 (some 1800) ∧
    booking_end_time 0 none = spec_end_time 0 none := by
  refine ⟨rfl, rfl, by decide, rfl⟩

/-- C6: the business-hours gate of `Booking.clean` parses the
configured strings 08:00 AM and 06:00 PM to the hours 8 and 18 and
rejects a booking exactly when its local wall-clock hour lies outside
the half-open interval [8, 18); in particular a booking at 07:30
(hour 7) is rejected. -/
theorem C6_business_hours_gate :
    (∀ local_hour : Nat,
        clean_business_hours_reject local_hour = false ↔
          8 ≤ local_hour ∧ local_hour < 18) ∧
    strptime_hour BUSINESS_HOURS_start_time = some 8 ∧
    strptime_hour BUSINESS_HOURS_end_time = some 18 ∧
    clean_business_hours_reject 7 = true := by
  refine ⟨?_, rfl, rfl, rfl⟩
  intro h
  have hs : strptime_hour BUSINESS_HOURS_start_time = some 8 := rfl
  have he : strptime_hour BUSINESS_HOURS_end_time = some 18 := rfl
  simp only [clean_business_hours_reject, hs, he, decide_eq_false_iff_not, not_not]

/-- C7 counterexample: the claim asserts 0 ≤ amount_paid for all
Transactions and says creation is rejected exactly on total_amount ≤ 0
or amount_paid > total_amount; but `Transaction.clean` accepts a
transaction created with amount_paid = -50.00, which violates the
lower bound. -/
theorem C7_counterexample :
    Transaction.clean
        { total_amount := 10000, amount_paid := -5000, status := Finances.PENDING }
      = .ok () ∧
    ¬ (0 ≤ ({ total_amount := 10000, amount_paid := -5000,
              status := Finances.PENDING } : Transaction).amount_paid) := by
  exact ⟨rfl, by decide⟩

/-- An accepted PaymentRecord insert is exactly a positive payment that
keeps the cumulative total within the transaction total, and it adds
the amount to `amount_paid`. -/
lemma insertPayment_ok_iff (t : Transaction) (amount : ℤ) (t2 : Transaction) :
    insertPayment t amount = .ok t2 ↔
      0 < amount ∧ t.amount_paid + amount ≤ t.total_amount ∧
        t2 = { t with amount_paid := t.amount_paid + amount } := by
  unfold insertPayment PaymentRecord.clean
  split_ifs with h1 h2
  · exact iff_of_false (by simp) (fun hc => absurd hc.1 (by omega))
  · exact iff_of_false (by simp) (fun hc => absurd hc.2.1 (by omega))
  · constructor
    · intro h
      injection h with h3
      exact ⟨by omega, by omega, h3.symm⟩
    · rintro ⟨-, -, rfl⟩
      rfl

/-- C7 amended: creation is rejected exactly when total_amount ≤ 0 or
amount_paid > total_amount (so amount_paid ≤ total_amount holds for
every transaction passing clean, but 0 ≤ amount_paid is not checked at
creation); for a transaction whose amount_paid is currently
nonnegative, any accepted PaymentRecord insert keeps
0 ≤ amount_paid ≤ total_amount, and an insert whose amount would push
the cumulative total above total_amount is rejected. -/
theorem C7_amended (t : Transaction) (amount : ℤ) (h0 : 0 ≤ t.amount_paid) :
    (Transaction.clean t = .ok () ↔
      0 < t.total_amount ∧ t.amount_paid ≤ t.total_amount) ∧
    (∀ t2, insertPayment t amount = .ok t2 →
      0 ≤ t2.amount_paid ∧ t2.amount_paid ≤ t2.total_amount) ∧
    (t.amount_paid + amount > t.total_amount →
      ∃ e, insertPayment t amount = .error e) := by
  refine ⟨?_, ?_, ?_⟩
  · unfold Transaction.clean
    split_ifs with h1 h2
    · simp
      all_goals omega
    · simp
      all_goals omega
    · simp
      all_goals omega
  · intro t2 h
    rw [insertPayment_ok_iff] at h
    obtain ⟨ha, hle, rfl⟩ := h
    constructor
    · show 0 ≤ t.amount_paid + amount
      omega
    · show t.amount_paid + amount ≤ t.total_amount
      omega
  · intro hover
    unfold insertPayment PaymentRecord.clean
    split_ifs
    all_goals exact ⟨_, rfl⟩

/-- C7 witness: a concrete overpaying insert (250.00 already paid of a
1000.00 total, then a payment of 900.00) is rejected. -/
theorem C7_amended_witness :
    ∃ e, insertPayment
        { total_amount := 100000, amount_paid := 25000, status := Finances.PENDING }
        90000 = .error e :=
  (C7_amended { total_amount := 100000, amount_paid := 25000, status := Finances.PENDING }
      90000 (by decide)).2.2 (by decide)

/-- C3 counterexample: the claim says every candidate whose occupation
interval intersects an existing confirmed booking of the same
technician is rejected.  Take a candidate with a 1-minute service
(estimated time 60 seconds) at time 10000 and an existing confirmed
booking of the same technician with a 2-hour service (7200 seconds)
started at time 6400: the true intervals [6400, 13600) and
[10000, 10060) intersect, but the overlap query — which windows every
existing row by the candidate duration only (converted with the
minutes/seconds slip) — does not match the row, so the candidate is
accepted. -/
theorem C3_counterexample :
    intervals_intersect 6400 (spec_duration_seconds (some 7200))
      10000 (spec_duration_seconds (some 60)) ∧
    clean_overlap_rejects
        { pk := none, technician := 1, scheduled_time := 10000,
          estimated_time_seconds := some 60 }
        [{ pk := 5, technician := some 1, status := BookingStatus.CONFIRMED,
           scheduled_time := 6400, estimated_time_seconds := some 7200 }] = false := by
  exact ⟨⟨by decide, by decide⟩, rfl⟩

/-- C3 amended: the overlap gate of Booking.clean windows existing
confirmed/in_progress rows of the candidate technician by plus/minus
60 times the candidate service-duration number around the candidate
start (the minutes/seconds slip widens the window), excluding the row
being updated.  This over-approximates interval intersection whenever
the two bookings have the same duration: under equal durations every
truly intersecting existing row is matched, so the candidate is
rejected — in particular the Scenario C booking at 10:30 against an
existing 10:00 confirmed booking of the same technician with a
60-minute service.  With unequal durations an intersecting row can be
missed (see the counterexample). -/
theorem C3_amended (cand : BookingCand) (existing : List BookingRow) (b : BookingRow)
    (hmem : b ∈ existing)
    (htech : b.technician = some cand.technician)
    (hstatus : b.status = BookingStatus.CONFIRMED ∨ b.status = BookingStatus.IN_PROGRESS)
    (hpk : cand.pk ≠ some b.pk)
    (hdur : spec_duration_seconds b.estimated_time_seconds
      = spec_duration_seconds cand.estimated_time_seconds)
    (hpos : 0 < spec_duration_seconds cand.estimated_time_seconds)
    (hov : intervals_intersect b.scheduled_time
      (spec_duration_seconds b.estimated_time_seconds)
      cand.scheduled_time (spec_duration_seconds cand.estimated_time_seconds)) :
    clean_overlap_rejects cand existing = true := by
  have hwide : spec_duration_seconds cand.estimated_time_seconds
      ≤ 60 * service_duration cand.estimated_time_seconds := by
    cases hc : cand.estimated_time_seconds with
    | none => simp [spec_duration_seconds, service_duration]
    | some d =>
      rw [hc] at hpos
      simp only [spec_duration_seconds, service_duration] at hpos ⊢
      omega
  obtain ⟨hov1, hov2⟩ := hov
  rw [hdur] at hov2
  unfold clean_overlap_rejects
  rw [List.any_eq_true]
  refine ⟨b, hmem, ?_⟩
  unfold overlap_filter_hit
  simp only [Bool.and_eq_true, beq_iff_eq, Bool.or_eq_true, bne_iff_ne,
    decide_eq_true_eq, ne_eq]
  refine ⟨⟨⟨⟨htech, ?_⟩, ?_⟩, ?_⟩, ?_⟩
  · rcases hstatus with h | h <;> simp [h]
  · omega
  · omega
  · intro hcontra
    exact hpk hcontra.symm

/-- C3 witness for the amended statement, Scenario C: technician 7 has
a confirmed booking with a 60-minute service at 36000 seconds (10:00);
a candidate for the same technician and a 60-minute service at 37800
seconds (10:30) intersects it and is rejected. -/
theorem C3_amended_witness :
    clean_overlap_rejects
        { pk := none, technician := 7, scheduled_time := 37800,
          estimated_time_seconds := some 3600 }
        [{ pk := 1, technician := some 7, status := BookingStatus.CONFIRMED,
           scheduled_time := 36000, estimated_time_seconds := some 3600 }] = true :=
  C3_amended _ _ _ (List.mem_singleton.mpr rfl) rfl (Or.inl rfl) (by decide)
    rfl (by decide) ⟨by decide, by decide⟩

/-- C4 counterexample: the claim says an accepted BookingParts creation
decrements the effective available stock by the requested quantity, so
a shop part with stock 2 granted a request of 2 is left with effective
stock 0 and status out of stock.  In the code nothing decrements the
part quantity: the accepted save leaves the part record unchanged
(stock still 2), whose derived status is in stock, not out of stock.
The rejection half (request of 3 against stock 2) does hold. -/
theorem C4_counterexample :
    BookingParts.save
        { part := { customer_laptop := none, name := "RAM", quantity := some 2,
                    minimum_stock := 1 }, rows := [] } 1 none 10 3
      = .error (.validation "Not enough stock") ∧
    BookingParts.save
        { part := { customer_laptop := none, name := "RAM", quantity := some 2,
                    minimum_stock := 1 }, rows := [] } 1 none 10 2
      = .ok { part := { customer_laptop := none, name := "RAM", quantity := some 2,
                        minimum_stock := 1 },
              rows := [{ booking := 1, part := 10, quantity := 2 }] } ∧
    get_stock_status (some 2) 1 = .inStock := by
  exact ⟨rfl, rfl, rfl⟩

/-- C4 amended: for a shop-owned part with recorded stock, a
BookingParts creation is rejected exactly when the requested quantity
exceeds the recorded stock; an accepted creation appends the row and
leaves the part record — hence the available stock — unchanged, so no
decrement happens and a later deletion of the row has nothing to
restore. -/
theorem C4_amended (st : PartsState) (booking partId : Nat) (bdev : Option Nat)
    (q stock : Nat)
    (hshop : st.part.customer_laptop = none)
    (hq : st.part.quantity = some stock) :
    (BookingParts.save st booking bdev partId q
        = .error (.validation "Not enough stock") ↔ q > stock) ∧
    (q ≤ stock → BookingParts.save st booking bdev partId q
        = .ok { st with rows := st.rows ++ [⟨booking, partId, q⟩] }) ∧
    (∀ st2, BookingParts.save st booking bdev partId q = .ok st2 →
      st2.part = st.part) := by
  unfold BookingParts.save BookingParts.clean
  rw [hshop, hq]
  dsimp only
  refine ⟨?_, ?_, ?_⟩
  · split_ifs with h
    · simp [h]
    · simp
      omega
  · intro hle
    split_ifs with h
    · omega
    · rfl
  · intro st2 h2
    split_ifs at h2
    injection h2 with h3
    rw [← h3]

/-- C4 witness: the Scenario E part (stock 2, request 2) is accepted
and the stored part record is unchanged. -/
theorem C4_amended_witness :
    BookingParts.save
        { part := { customer_laptop := none, name := "SSD", quantity := some 2,
                    minimum_stock := 1 }, rows := [] } 4 none 11 2
      = .ok { part := { customer_laptop := none, name := "SSD", quantity := some 2,
                        minimum_stock := 1 },
              rows := [{ booking := 4, part := 11, quantity := 2 }] } :=
  (C4_amended
      { part := { customer_laptop := none, name := "SSD", quantity := some 2,
                  minimum_stock := 1 }, rows := [] } 4 11 none 2 2 rfl rfl).2.1
    (by decide)

/-- C5 counterexample: the claim says transitions completed → cancelled
are denied and everything outside the three listed bans is permitted;
the gate in the serializer permits completed → cancelled and denies
cancelled → completed. -/
theorem C5_counterexample :
    transition_denied BookingStatus.COMPLETED BookingStatus.CANCELLED = false ∧
    transition_denied BookingStatus.CANCELLED BookingStatus.COMPLETED = true := by
  exact ⟨rfl, rfl⟩

/-- C5 amended: over the five booking statuses, the update gate denies
exactly completed → pending, completed → confirmed and
cancelled → completed, and permits every other transition. -/
theorem C5_amended (current_status new_status : String)
    (hc : current_status ∈ BookingStatus.CHOICES)
    (hn : new_status ∈ BookingStatus.CHOICES) :
    transition_denied current_status new_status = true ↔
      ((current_status = BookingStatus.COMPLETED ∧
          (new_status = BookingStatus.PENDING ∨ new_status = BookingStatus.CONFIRMED)) ∨
        (current_status = BookingStatus.CANCELLED ∧
          new_status = BookingStatus.COMPLETED)) := by
  fin_cases hc <;> fin_cases hn <;> decide

/-- C5 witness: the gate denies completed → pending, an instance of the
ban list. -/
theorem C5_amended_witness :
    transition_denied BookingStatus.COMPLETED BookingStatus.PENDING = true ↔
      ((BookingStatus.COMPLETED = BookingStatus.COMPLETED ∧
          (BookingStatus.PENDING = BookingStatus.PENDING ∨
            BookingStatus.PENDING = BookingStatus.CONFIRMED)) ∨
        (BookingStatus.COMPLETED = BookingStatus.CANCELLED ∧
          BookingStatus.PENDING = BookingStatus.COMPLETED)) :=
  C5_amended BookingStatus.COMPLETED BookingStatus.PENDING (by decide) (by decide)

/-- C8 counterexample: the claim says the gateway fails with an
Unauthenticated error when no bearer credential is present; the
middleware instead returns a Django AnonymousUser successfully (no
exception) when the Authorization header is absent or not a bearer
header. -/
theorem C8_counterexample :
    _get_user "" (fun _ => none) (fun _ => none) = .ok .anonymousUser := by
  exact rfl

/-- C8 amended: with no usable bearer token the middleware returns an
anonymous principal without raising; a token failing verification
raises AuthenticationFailed with Invalid token; a verified subject id
with no matching local account raises AuthenticationFailed with User
not found; on success the user is attached with profile_type customer
when a customer profile exists, else staff when a staff profile
exists, and no path creates an account (the function only reads). -/
theorem C8_amended (auth_header : String) (verify_id_token : String → Option String)
    (lookup_user : String → Option UserRecord) (token uid : String) (u : UserRecord) :
    (_get_token_from_header auth_header = none →
      _get_user auth_header verify_id_token lookup_user = .ok .anonymousUser) ∧
    (_get_token_from_header auth_header = some token → token ≠ "" →
      verify_id_token token = none →
      _get_user auth_header verify_id_token lookup_user = .error "Invalid token") ∧
    (_get_token_from_header auth_header = some token → token ≠ "" →
      verify_id_token token = some uid → lookup_user uid = none →
      _get_user auth_header verify_id_token lookup_user = .error "User not found") ∧
    (_get_token_from_header auth_header = some token → token ≠ "" →
      verify_id_token token = some uid → lookup_user uid = some u →
      _get_user auth_header verify_id_token lookup_user =
        .ok (.authUser u
          (if u.has_customer_profile then some "customer"
           else if u.has_staff_profile then some "staff"
           else none))) := by
  refine ⟨?_, ?_, ?_, ?_⟩
  · intro h
    unfold _get_user
    rw [h]
  · intro h hne hv
    unfold _get_user
    rw [h]
    simp [hne, hv]
  · intro h hne hv hl
    unfold _get_user
    rw [h]
    simp [hne, hv, hl]
  · intro h hne hv hl
    unfold _get_user
    rw [h]
    simp [hne, hv, hl]
    split_ifs <;> rfl

/-- C8 witness: a bearer token the provider rejects produces the
Invalid token failure. -/
theorem C8_amended_witness :
    _get_user "Bearer tok" (fun _ => none) (fun _ => none) = .error "Invalid token" :=
  (C8_amended "Bearer tok" (fun _ => none) (fun _ => none) "tok" "" ⟨"", false, false⟩).2.1
    (by decide) (by decide) rfl

/-- C9 counterexample: the claim says a part with quantity exactly
equal to minimum_stock is reported as in stock, not low, on the read
path; the admin read path agrees, but the detail serializer flag
`is_low_stock` compares with ≤ and reports such a part as low stock. -/
theorem C9_counterexample :
    get_is_low_stock 5 5 = true ∧ get_stock_status (some 5) 5 = .inStock := by
  exact ⟨rfl, rfl⟩

/-- C9 amended: the admin stock-status derivation follows the claimed
three-way rule (out of stock exactly at quantity 0, low stock exactly
for 0 < quantity < minimum_stock, in stock otherwise, so the boundary
quantity = minimum_stock is in stock); the detail serializer computes a
separate is_low_stock flag as quantity ≤ minimum_stock, which marks the
boundary part as low. -/
theorem C9_amended (q m : Nat) :
    (get_stock_status (some q) m = .outOfStock ↔ q = 0) ∧
    (get_stock_status (some q) m = .lowStock ↔ 0 < q ∧ q < m) ∧
    (get_stock_status (some q) m = .inStock ↔ 0 < q ∧ m ≤ q) ∧
    (get_is_low_stock q m = true ↔ q ≤ m) := by
  unfold get_stock_status get_is_low_stock
  dsimp only
  split_ifs with h1 h2
  · simp
    all_goals omega
  · simp
    all_goals omega
  · simp
    all_goals omega

/-- Rows of other bookings survive the replace filter unchanged. -/
lemma filter_ne_filter_eq_nil (rows : List BookingPartsRow) (b : Nat) :
    (rows.filter (fun r => r.booking != b)).filter (fun r => r.booking == b) = [] := by
  induction rows with
  | nil => rfl
  | cons r rs ih =>
    rw [List.filter_cons]
    by_cases h : r.booking = b
    · simp [h, ih]
    · simp [h, List.filter_cons, ih]

/-- Filtering away a booking is idempotent. -/
lemma filter_ne_idem (rows : List BookingPartsRow) (b : Nat) :
    (rows.filter (fun r => r.booking != b)).filter (fun r => r.booking != b)
      = rows.filter (fun r => r.booking != b) := by
  induction rows with
  | nil => rfl
  | cons r rs ih =>
    rw [List.filter_cons]
    by_cases h : r.booking = b
    · simp [h, ih]
    · simp [h, List.filter_cons, ih]

/-- C10: the update serializer treats the parts list as
replace-all-or-ignore: with the parts field omitted the stored
BookingParts rows are untouched; with a parts list supplied, the rows
of that booking afterwards are exactly the requested ones (in order)
and rows of other bookings are untouched. -/
theorem C10_replace_all_semantics (rows : List BookingPartsRow) (booking : Nat)
    (ps : List PartData) :
    serializer_update_parts rows booking none = rows ∧
    (serializer_update_parts rows booking (some ps)).filter
        (fun r => r.booking == booking)
      = ps.map (fun p => ⟨booking, p.part, p.quantity⟩) ∧
    (serializer_update_parts rows booking (some ps)).filter
        (fun r => r.booking != booking)
      = rows.filter (fun r => r.booking != booking) := by
  refine ⟨rfl, ?_, ?_⟩
  · unfold serializer_update_parts
    rw [List.filter_append, filter_ne_filter_eq_nil]
    rw [List.nil_append]
    induction ps with
    | nil => rfl
    | cons p pr ih => simp [List.filter, ih]
  · unfold serializer_update_parts
    rw [List.filter_append, filter_ne_idem]
    have hmap : (ps.map (fun p => (⟨booking, p.part, p.quantity⟩ : BookingPartsRow))).filter
        (fun r => r.booking != booking) = [] := by
      induction ps with
      | nil => rfl
      | cons p pr ih => simp [List.filter, ih]
    rw [hmap, List.append_nil]
